import Mathlib

/-!
Shallow embedding of `src/cadqueryeval/geometry.py`, the mesh
geometric-equivalence verifier of cadqueryeval.

The Python module delegates the heavy geometric primitives to the external
libraries open3d and trimesh (mesh loading, watertightness, connected
components, volume, point sampling, registration, nearest-neighbor
distances, bounding boxes).  Those externals are modelled as an explicit
`World`: a map from file paths to the observable properties of the mesh
stored there, plus the outputs of the registration pipeline and of the
distance/extent queries (the latter as functions of the rigid transform
that the code applies, so that "the same transform" is expressible).
Floating-point numbers are modelled as rationals; the control flow of each
Python function is translated line by line.
-/

namespace CadQueryEval

/-- 4x4 homogeneous transformation matrices, as in the source
(`ransac_result.transformation`, `icp_result.transformation`,
`final_transform = t_icp @ t_ransac`). -/
abbrev Transform := Matrix (Fin 4) (Fin 4) ℚ

/-- Observable properties of the mesh file stored at a path, i.e. the
results the external libraries report for it:
* `hasTriangles` — open3d `mesh.has_triangles()` right after loading;
* `cleanedHasTriangles` — `has_triangles()` after `clean_mesh`;
* `isWatertightO3d` — open3d `mesh.is_watertight()` on the cleaned mesh;
* `numComponents` — `len(cluster_n_triangles)` from
  `cluster_connected_triangles()` on the cleaned mesh;
* `volume` — trimesh `mesh.volume`;
* `isWatertightTm` — trimesh `mesh.is_watertight`;
* `sampledCount` — `len(pcd.points)` after `sample_points_uniformly(50000)`;
* `downHasPoints` — `pcd_down.has_points()` after `voxel_down_sample`;
* `fpfhNonempty` — the FPFH feature of the downsampled cloud is non-None
  with nonzero width (`fpfh.data.shape[1] != 0`). -/
structure MeshData where
  hasTriangles : Bool
  cleanedHasTriangles : Bool
  isWatertightO3d : Bool
  numComponents : Nat
  volume : ℚ
  isWatertightTm : Bool
  sampledCount : Nat
  downHasPoints : Bool
  fpfhNonempty : Bool

/-- The three axis-aligned bounding-box extents reported by trimesh
(`mesh.bounding_box.extents`). -/
abbrev Extents := ℚ × ℚ × ℚ

/-- The environment a run of the checker observes: which paths hold mesh
files and with what properties, and the outputs of the registration
pipeline for a (generated, reference) pair of paths.  `distGenToRef t` /
`distRefToGen t` are the nearest-neighbor distance arrays between the
generated cloud transformed by `t` and the reference cloud
(`compute_point_cloud_distance` in both directions); `extents p t` are the
bounding-box extents of the full-resolution mesh at `p` after applying
transform `t`. -/
structure World where
  files : String → Option MeshData
  tRansac : String → String → Transform
  tIcp : String → String → Transform
  icpFitness : String → String → ℚ
  distGenToRef : String → String → Transform → List ℚ
  distRefToGen : String → String → Transform → List ℚ
  extents : String → Transform → Extents

/-- Embedding of the dataclass `GeometryCheckResult`: six optional
booleans, five optional continuous metrics, two optional raw volumes and
the accumulated error strings. -/
structure GeometryCheckResult where
  is_watertight : Option Bool := none
  is_single_component : Option Bool := none
  bbox_accurate : Option Bool := none
  volume_passed : Option Bool := none
  chamfer_passed : Option Bool := none
  hausdorff_passed : Option Bool := none
  chamfer_distance : Option ℚ := none
  hausdorff_95p : Option ℚ := none
  hausdorff_99p : Option ℚ := none
  icp_fitness : Option ℚ := none
  volume_ratio : Option ℚ := none
  reference_volume : Option ℚ := none
  generated_volume : Option ℚ := none
  errors : List String := []
  deriving DecidableEq, Repr

/-- `GeometryCheckResult.all_passed`: all six binary checks must be
`True` — not `None` or `False`. -/
def GeometryCheckResult.all_passed (r : GeometryCheckResult) : Bool :=
  [r.is_watertight, r.is_single_component, r.bbox_accurate,
   r.volume_passed, r.chamfer_passed, r.hausdorff_passed].all
    (fun c => c == some true)

/-- Embedding of `check_watertight`: file existence, triangles before and
after cleaning, then open3d watertightness. -/
def check_watertight (w : World) (stl_path : String) : Bool × Option String :=
  match w.files stl_path with
  | none => (false, some ("File not found: " ++ stl_path))
  | some m =>
    if ¬ m.hasTriangles then (false, some "Mesh has no triangles")
    else if ¬ m.cleanedHasTriangles then (false, some "Mesh empty after cleaning")
    else if ¬ m.isWatertightO3d then
      (false, some "Mesh is not manifold (non-watertight edges)")
    else (true, none)

/-- Embedding of `check_single_component`: connected-component count must
equal `expected_components`. -/
def check_single_component (w : World) (stl_path : String)
    (expected_components : Nat) : Bool × Option String :=
  match w.files stl_path with
  | none => (false, some ("File not found: " ++ stl_path))
  | some m =>
    if ¬ m.hasTriangles then (false, some "Mesh has no triangles")
    else if ¬ m.cleanedHasTriangles then (false, some "Mesh empty after cleaning")
    else if m.numComponents ≠ expected_components then
      (false, some ("Found " ++ toString m.numComponents ++
        " components, expected " ++ toString expected_components))
    else (true, none)

/-- Embedding of `check_volume`.  Returns
`(passed, ref_volume, gen_volume, error_msg)`. -/
def check_volume (w : World) (generated_path reference_path : String)
    (threshold_percent : ℚ) : Bool × Option ℚ × Option ℚ × Option String :=
  match w.files generated_path with
  | none => (false, none, none,
      some ("Generated file not found: " ++ generated_path))
  | some gen =>
    match w.files reference_path with
    | none => (false, none, none,
        some ("Reference file not found: " ++ reference_path))
    | some ref =>
      let gen_vol := gen.volume
      let ref_vol := ref.volume
      if ¬ gen.isWatertightTm then
        (false, some ref_vol, some gen_vol,
          some "Generated mesh not watertight for volume")
      else if ¬ ref.isWatertightTm then
        (false, some ref_vol, some gen_vol,
          some "Reference mesh not watertight for volume")
      else if ref_vol = 0 then
        if gen_vol = 0 then (true, some ref_vol, some gen_vol, none)
        else (false, some ref_vol, some gen_vol,
          some "Reference volume is zero but generated is not")
      else
        let percent_diff := |gen_vol - ref_vol| / |ref_vol| * 100
        (decide (percent_diff ≤ threshold_percent),
          some ref_vol, some gen_vol, none)

/-- `np.mean` of a list of rationals. -/
def listMean (l : List ℚ) : ℚ := l.sum / l.length

/-- `np.percentile(a, q)` with the default linear-interpolation method:
on the ascending sort `s` of `a` with `n` elements, the value at
fractional position `q / 100 * (n - 1)`, linearly interpolated between
the two neighboring entries. -/
def percentile (l : List ℚ) (q : ℚ) : ℚ :=
  let s := l.insertionSort (· ≤ ·)
  let n := s.length
  if n = 0 then 0
  else
    let pos : ℚ := q / 100 * (n - 1)
    let lo := s.getD (⌊pos⌋).toNat 0
    let hi := s.getD (⌈pos⌉).toNat 0
    lo + (pos - ⌊pos⌋) * (hi - lo)

/-- The three bounding-box extents as a list (`mesh.bounding_box.extents`
is always a 3-vector). -/
def extentsList (e : Extents) : List ℚ := [e.1, e.2.1, e.2.2]

/-- Embedding of `check_similarity`.  Returns
`(chamfer_dist, hausdorff_95p, hausdorff_99p, icp_fitness, bbox_accurate,
error)`.  The thresholds `chamfer_threshold` and `hausdorff_threshold`
are parameters of the Python function's signature. -/
def check_similarity (w : World) (generated_path reference_path : String)
    (chamfer_threshold hausdorff_threshold bbox_tolerance : ℚ) :
    Option ℚ × Option ℚ × Option ℚ × Option ℚ × Option Bool × Option String :=
  match w.files generated_path with
  | none => (none, none, none, none, none,
      some ("Generated file not found: " ++ generated_path))
  | some gen =>
    match w.files reference_path with
    | none => (none, none, none, none, none,
        some ("Reference file not found: " ++ reference_path))
    | some ref =>
      if ¬ gen.hasTriangles then
        (none, none, none, none, none, some "Generated mesh has no triangles")
      else if ¬ ref.hasTriangles then
        (none, none, none, none, none, some "Reference mesh has no triangles")
      else if gen.sampledCount < 100 ∨ ref.sampledCount < 100 then
        (none, none, none, none, none, some "Too few points sampled")
      else if ¬ gen.downHasPoints ∨ ¬ gen.fpfhNonempty ∨
          ¬ ref.downHasPoints ∨ ¬ ref.fpfhNonempty then
        (none, none, none, none, none,
          some "Preprocessing for registration failed")
      else
        let t_ransac := w.tRansac generated_path reference_path
        let t_icp := w.tIcp generated_path reference_path
        let icp_fitness := w.icpFitness generated_path reference_path
        let final_transform := t_icp * t_ransac
        let dist_gen_to_ref := w.distGenToRef generated_path reference_path final_transform
        let dist_ref_to_gen := w.distRefToGen generated_path reference_path final_transform
        if dist_gen_to_ref.length = 0 ∨ dist_ref_to_gen.length = 0 then
          (none, none, none, some icp_fitness, none,
            some "Distance calculation failed")
        else
          let chamfer_dist := (listMean dist_gen_to_ref + listMean dist_ref_to_gen) / 2
          let all_distances := dist_gen_to_ref ++ dist_ref_to_gen
          let hausdorff_95p := percentile all_distances 95
          let hausdorff_99p := percentile all_distances 99
          let gen_dims := (extentsList (w.extents generated_path final_transform)).insertionSort (· ≤ ·)
          let ref_dims := (extentsList (w.extents reference_path 1)).insertionSort (· ≤ ·)
          let diffs := List.zipWith (fun a b => |a - b|) gen_dims ref_dims
          let bbox_accurate := diffs.all (fun d => decide (d ≤ bbox_tolerance))
          (some chamfer_dist, some hausdorff_95p, some hausdorff_99p,
            some icp_fitness, some bbox_accurate, none)

/-- The aggregator's handling of a stage's optional error message:
`if err: result.errors.append(tag + ": " + err)`. -/
def tagError (tag : String) : Option String → List String
  | some e => [tag ++ ": " ++ e]
  | none => []

/-- The Python truthiness test `if ref_vol and gen_vol` guarding the
volume-ratio computation: both volumes non-None and nonzero. -/
def volumeRatio (ref_vol gen_vol : Option ℚ) : Option ℚ :=
  match ref_vol, gen_vol with
  | some r, some g => if r ≠ 0 ∧ g ≠ 0 then some (g / r) else none
  | _, _ => none

/-- Embedding of the aggregator `perform_geometry_checks`. -/
def perform_geometry_checks (w : World) (generated_path reference_path : String)
    (expected_components : Nat)
    (chamfer_threshold hausdorff_threshold volume_threshold_percent
     bbox_tolerance : ℚ) : GeometryCheckResult :=
  if (w.files generated_path).isNone then
    { errors := ["Generated file not found: " ++ generated_path] }
  else
    let wt := check_watertight w generated_path
    let errs1 : List String := tagError "Watertight" wt.2
    let comp := check_single_component w generated_path expected_components
    let errs2 : List String := errs1 ++ tagError "Components" comp.2
    if (w.files reference_path).isNone then
      { is_watertight := some wt.1, is_single_component := some comp.1,
        errors := errs2 ++ ["Reference file not found: " ++ reference_path] }
    else
      let vol := check_volume w generated_path reference_path volume_threshold_percent
      let vol_passed := vol.1
      let ref_vol := vol.2.1
      let gen_vol := vol.2.2.1
      let vol_error := vol.2.2.2
      let volume_ratio := volumeRatio ref_vol gen_vol
      let errs3 : List String := errs2 ++ tagError "Volume" vol_error
      let sim := check_similarity w generated_path reference_path
        chamfer_threshold hausdorff_threshold bbox_tolerance
      let chamfer := sim.1
      let h95 := sim.2.1
      let h99 := sim.2.2.1
      let icp := sim.2.2.2.1
      let bbox_acc := sim.2.2.2.2.1
      let sim_error := sim.2.2.2.2.2
      let errs4 : List String := errs3 ++ tagError "Similarity" sim_error
      { is_watertight := some wt.1,
        is_single_component := some comp.1,
        bbox_accurate := bbox_acc,
        volume_passed := some vol_passed,
        chamfer_passed := chamfer.map (fun c => decide (c ≤ chamfer_threshold)),
        hausdorff_passed := h95.map (fun h => decide (h ≤ hausdorff_threshold)),
        chamfer_distance := chamfer,
        hausdorff_95p := h95,
        hausdorff_99p := h99,
        icp_fitness := icp,
        volume_ratio := volume_ratio,
        reference_volume := ref_vol,
        generated_volume := gen_vol,
        errors := errs4 }

/-! ### Concrete worlds for witnesses -/

/-- A well-behaved mesh of the given volume: loads with triangles,
survives cleaning, watertight for both backends, single component,
full 50000-point sample, preprocessing succeeds. -/
def okMesh (v : ℚ) : MeshData :=
  { hasTriangles := true, cleanedHasTriangles := true, isWatertightO3d := true,
    numComponents := 1, volume := v, isWatertightTm := true,
    sampledCount := 50000, downHasPoints := true, fpfhNonempty := true }

/-- A world holding the generated mesh at `"gen.stl"` and the reference
at `"ref.stl"`, with identity registration transforms and constant
distance arrays / extents. -/
def mkWorld (gen ref : MeshData) (d1 d2 : List ℚ) (eg er : Extents) : World :=
  { files := fun p =>
      if p = "gen.stl" then some gen
      else if p = "ref.stl" then some ref
      else none,
    tRansac := fun _ _ => 1,
    tIcp := fun _ _ => 1,
    icpFitness := fun _ _ => 1,
    distGenToRef := fun _ _ _ => d1,
    distRefToGen := fun _ _ _ => d2,
    extents := fun p _ => if p = "gen.stl" then eg else er }

/-- A fully successful sample world: both meshes volume 8, distances 0,
identical unit-cube extents. -/
def sampleWorld : World :=
  mkWorld (okMesh 8) (okMesh 8) [0, 0] [0, 0] (1, 1, 1) (1, 1, 1)

/-- Like `okMesh` but trimesh reports the mesh as not watertight. -/
def nwMesh (v : ℚ) : MeshData := { okMesh v with isWatertightTm := false }

/-- A world in which both meshes fail trimesh's watertightness test. -/
def bothNotWatertightWorld : World :=
  mkWorld (nwMesh 3) (nwMesh 5) [0, 0] [0, 0] (1, 1, 1) (1, 1, 1)

/-- Like `okMesh` but only 50 points get sampled. -/
def fewPointsMesh : MeshData := { okMesh 1 with sampledCount := 50 }

/-- A world whose generated mesh yields fewer than 100 sampled points. -/
def fewPointsWorld : World :=
  mkWorld fewPointsMesh (okMesh 1) [0, 0] [0, 0] (1, 1, 1) (1, 1, 1)

/-- A world with no files at all. -/
def emptyWorld : World :=
  { files := fun _ => none,
    tRansac := fun _ _ => 1, tIcp := fun _ _ => 1, icpFitness := fun _ _ => 1,
    distGenToRef := fun _ _ _ => [], distRefToGen := fun _ _ _ => [],
    extents := fun _ _ => (0, 0, 0) }

/-- A world holding only the generated mesh (reference path missing). -/
def genOnlyWorld : World :=
  { files := fun p => if p = "gen.stl" then some (okMesh 8) else none,
    tRansac := fun _ _ => 1, tIcp := fun _ _ => 1, icpFitness := fun _ _ => 1,
    distGenToRef := fun _ _ _ => [], distRefToGen := fun _ _ _ => [],
    extents := fun _ _ => (0, 0, 0) }

/-! ### Helper lemmas shared between claim theorems -/

/-- Unfolding of the aggregator when both input files exist: every field
of the result is exactly the corresponding stage output, and the error
list is the concatenation of the four tagged stage errors in stage
order. -/
theorem perform_geometry_checks_both_exist (w : World) (gp rp : String)
    (ec : Nat) (ct ht vt bt : ℚ)
    (hg : (w.files gp).isNone = false) (hr : (w.files rp).isNone = false) :
    perform_geometry_checks w gp rp ec ct ht vt bt =
      { is_watertight := some (check_watertight w gp).1,
        is_single_component := some (check_single_component w gp ec).1,
        bbox_accurate := (check_similarity w gp rp ct ht bt).2.2.2.2.1,
        volume_passed := some (check_volume w gp rp vt).1,
        chamfer_passed := (check_similarity w gp rp ct ht bt).1.map
          (fun c => decide (c ≤ ct)),
        hausdorff_passed := (check_similarity w gp rp ct ht bt).2.1.map
          (fun h => decide (h ≤ ht)),
        chamfer_distance := (check_similarity w gp rp ct ht bt).1,
        hausdorff_95p := (check_similarity w gp rp ct ht bt).2.1,
        hausdorff_99p := (check_similarity w gp rp ct ht bt).2.2.1,
        icp_fitness := (check_similarity w gp rp ct ht bt).2.2.2.1,
        volume_ratio := volumeRatio (check_volume w gp rp vt).2.1
          (check_volume w gp rp vt).2.2.1,
        reference_volume := (check_volume w gp rp vt).2.1,
        generated_volume := (check_volume w gp rp vt).2.2.1,
        errors := tagError "Watertight" (check_watertight w gp).2 ++
          tagError "Components" (check_single_component w gp ec).2 ++
          tagError "Volume" (check_volume w gp rp vt).2.2.2 ++
          tagError "Similarity" (check_similarity w gp rp ct ht bt).2.2.2.2.2 } := by
  rw [perform_geometry_checks, if_neg (by simp [hg]), if_neg (by simp [hr])]

/-- Unfolding of `check_similarity` on the success path. -/
theorem check_similarity_success (w : World) (gp rp : String)
    (ct ht bt : ℚ) (gen ref : MeshData)
    (hg : w.files gp = some gen) (hr : w.files rp = some ref)
    (hgt : gen.hasTriangles = true) (hrt : ref.hasTriangles = true)
    (hgs : 100 ≤ gen.sampledCount) (hrs : 100 ≤ ref.sampledCount)
    (hgd : gen.downHasPoints = true) (hgf : gen.fpfhNonempty = true)
    (hrd : ref.downHasPoints = true) (hrf : ref.fpfhNonempty = true)
    (hne1 : w.distGenToRef gp rp (w.tIcp gp rp * w.tRansac gp rp) ≠ [])
    (hne2 : w.distRefToGen gp rp (w.tIcp gp rp * w.tRansac gp rp) ≠ []) :
    check_similarity w gp rp ct ht bt =
      (some ((listMean (w.distGenToRef gp rp (w.tIcp gp rp * w.tRansac gp rp)) +
              listMean (w.distRefToGen gp rp (w.tIcp gp rp * w.tRansac gp rp))) / 2),
       some (percentile (w.distGenToRef gp rp (w.tIcp gp rp * w.tRansac gp rp) ++
              w.distRefToGen gp rp (w.tIcp gp rp * w.tRansac gp rp)) 95),
       some (percentile (w.distGenToRef gp rp (w.tIcp gp rp * w.tRansac gp rp) ++
              w.distRefToGen gp rp (w.tIcp gp rp * w.tRansac gp rp)) 99),
       some (w.icpFitness gp rp),
       some ((List.zipWith (fun a b => |a - b|)
          ((extentsList (w.extents gp (w.tIcp gp rp * w.tRansac gp rp))).insertionSort (· ≤ ·))
          ((extentsList (w.extents rp 1)).insertionSort (· ≤ ·))).all
            (fun d => decide (d ≤ bt))),
       none) := by
  have hgs' : ¬ gen.sampledCount < 100 := Nat.not_lt.mpr hgs
  have hrs' : ¬ ref.sampledCount < 100 := Nat.not_lt.mpr hrs
  have hl1 : ¬ (w.distGenToRef gp rp (w.tIcp gp rp * w.tRansac gp rp)).length = 0 := by
    simpa [List.length_eq_zero] using hne1
  have hl2 : ¬ (w.distRefToGen gp rp (w.tIcp gp rp * w.tRansac gp rp)).length = 0 := by
    simpa [List.length_eq_zero] using hne2
  simp [check_similarity, hg, hr, hgt, hrt, hgs', hrs', hgd, hgf, hrd, hrf,
    hl1, hl2]

/-! ### Claim theorems -/

/-- C1: `all_passed` is true iff all six binary check fields are present
and equal to `True`; in particular it is false whenever any of the six is
`None`, even if every present boolean is true. -/
theorem C1_all_passed_iff (r : GeometryCheckResult) :
    (r.all_passed = true ↔
      (r.is_watertight = some true ∧ r.is_single_component = some true ∧
       r.bbox_accurate = some true ∧ r.volume_passed = some true ∧
       r.chamfer_passed = some true ∧ r.hausdorff_passed = some true)) ∧
    ((r.is_watertight = none ∨ r.is_single_component = none ∨
      r.bbox_accurate = none ∨ r.volume_passed = none ∨
      r.chamfer_passed = none ∨ r.hausdorff_passed = none) →
      r.all_passed = false) := by
  constructor
  · simp [GeometryCheckResult.all_passed, and_assoc]
  · rintro (h | h | h | h | h | h) <;>
      simp [GeometryCheckResult.all_passed, h]

/-- Witness for C1: a result whose six booleans are all true except a
`None` `hausdorff_passed` has `all_passed = false`. -/
theorem C1_all_passed_iff_witness :
    ({ is_watertight := some true, is_single_component := some true,
       bbox_accurate := some true, volume_passed := some true,
       chamfer_passed := some true, hausdorff_passed := none } :
      GeometryCheckResult).all_passed = false :=
  (C1_all_passed_iff _).2 (Or.inr (Or.inr (Or.inr (Or.inr (Or.inr rfl)))))

/-- C2: for watertight meshes, `check_volume` passes when both volumes
are zero, fails with the degenerate-reference error when only the
reference volume is zero, and otherwise passes exactly when the relative
percentage difference is within the threshold. -/
theorem C2_check_volume_cases (w : World) (gp rp : String) (t : ℚ)
    (gen ref : MeshData)
    (hg : w.files gp = some gen) (hr : w.files rp = some ref)
    (hwg : gen.isWatertightTm = true) (hwr : ref.isWatertightTm = true) :
    (ref.volume = 0 ∧ gen.volume = 0 →
      check_volume w gp rp t = (true, some ref.volume, some gen.volume, none)) ∧
    (ref.volume = 0 ∧ gen.volume ≠ 0 →
      check_volume w gp rp t = (false, some ref.volume, some gen.volume,
        some "Reference volume is zero but generated is not")) ∧
    (ref.volume ≠ 0 →
      ((check_volume w gp rp t).1 = true ↔
        |gen.volume - ref.volume| / |ref.volume| * 100 ≤ t)) := by
  refine ⟨?_, ?_, ?_⟩
  · rintro ⟨h0, h1⟩
    simp [check_volume, hg, hr, hwg, hwr, h0, h1]
  · rintro ⟨h0, h1⟩
    simp [check_volume, hg, hr, hwg, hwr, h0, h1]
  · intro h0
    simp [check_volume, hg, hr, hwg, hwr, h0]

/-- Witness for C2: on the sample world (both volumes 8) the volume check
passes at the default 2 percent threshold. -/
theorem C2_check_volume_cases_witness :
    (check_volume sampleWorld "gen.stl" "ref.stl" 2).1 = true ↔
      |(8 : ℚ) - 8| / |(8 : ℚ)| * 100 ≤ 2 :=
  (C2_check_volume_cases sampleWorld "gen.stl" "ref.stl" 2 (okMesh 8) (okMesh 8)
    rfl rfl rfl rfl).2.2 (by norm_num [okMesh])

/-- C4 counterexample: when both meshes are non-watertight, `check_volume`
reports only the generated-mesh error — there is no error for the
reference mesh, contradicting "an error for each non-watertight mesh". -/
theorem C4_counterexample :
    check_volume bothNotWatertightWorld "gen.stl" "ref.stl" 2 =
      (false, some 5, some 3, some "Generated mesh not watertight for volume") ∧
    (check_volume bothNotWatertightWorld "gen.stl" "ref.stl" 2).2.2.2 ≠
      some "Reference mesh not watertight for volume" := by
  constructor
  · rfl
  · decide

/-- C4 amended: if the generated mesh is not watertight, `check_volume`
fails with the generated-mesh error (even when the reference is also
non-watertight); if only the reference is not watertight it fails with
the reference-mesh error; in both cases both volumes are reported. -/
theorem C4_not_watertight_amended (w : World) (gp rp : String) (t : ℚ)
    (gen ref : MeshData)
    (hg : w.files gp = some gen) (hr : w.files rp = some ref) :
    (gen.isWatertightTm = false →
      check_volume w gp rp t = (false, some ref.volume, some gen.volume,
        some "Generated mesh not watertight for volume")) ∧
    (gen.isWatertightTm = true → ref.isWatertightTm = false →
      check_volume w gp rp t = (false, some ref.volume, some gen.volume,
        some "Reference mesh not watertight for volume")) := by
  constructor
  · intro h
    simp [check_volume, hg, hr, h]
  · intro h1 h2
    simp [check_volume, hg, hr, h1, h2]

/-- Witness for the amended C4 on the both-non-watertight world. -/
theorem C4_not_watertight_amended_witness :
    check_volume bothNotWatertightWorld "gen.stl" "ref.stl" 2 =
      (false, some 5, some 3, some "Generated mesh not watertight for volume") :=
  (C4_not_watertight_amended bothNotWatertightWorld "gen.stl" "ref.stl" 2
    (nwMesh 3) (nwMesh 5) rfl rfl).1 rfl

/-- C9: with both files present and both meshes non-empty, if either
sampled cloud has fewer than 100 points, `check_similarity` returns the
"Too few points sampled" error with every metric absent. -/
theorem C9_too_few_points (w : World) (gp rp : String) (ct ht bt : ℚ)
    (gen ref : MeshData)
    (hg : w.files gp = some gen) (hr : w.files rp = some ref)
    (hgt : gen.hasTriangles = true) (hrt : ref.hasTriangles = true)
    (hfew : gen.sampledCount < 100 ∨ ref.sampledCount < 100) :
    check_similarity w gp rp ct ht bt =
      (none, none, none, none, none, some "Too few points sampled") := by
  rcases hfew with h | h <;>
    simp [check_similarity, hg, hr, hgt, hrt, h]

/-- Witness for C9: the 50-point generated sample triggers the error. -/
theorem C9_too_few_points_witness :
    check_similarity fewPointsWorld "gen.stl" "ref.stl" 1 1 1 =
      (none, none, none, none, none, some "Too few points sampled") :=
  C9_too_few_points fewPointsWorld "gen.stl" "ref.stl" 1 1 1
    fewPointsMesh (okMesh 1) rfl rfl rfl rfl (Or.inl (by decide))

/-- C10: the `chamfer_threshold` and `hausdorff_threshold` arguments have
no influence on `check_similarity`'s output: any two invocations agreeing
on the world, the paths and the bbox tolerance return identical results. -/
theorem C10_thresholds_no_influence (w : World) (gp rp : String)
    (ct1 ct2 ht1 ht2 bt : ℚ) :
    check_similarity w gp rp ct1 ht1 bt = check_similarity w gp rp ct2 ht2 bt := rfl

/-- C3: if the generated file is missing, the aggregator's result has a
non-empty error list and all six booleans are `None`; if the generated
file exists but the reference file is missing, the watertight and
single-component booleans are populated while the volume and similarity
booleans remain `None`. -/
theorem C3_file_existence_gates (w : World) (gp rp : String) (ec : Nat)
    (ct ht vt bt : ℚ) :
    (w.files gp = none →
      (perform_geometry_checks w gp rp ec ct ht vt bt).errors ≠ [] ∧
      (perform_geometry_checks w gp rp ec ct ht vt bt).is_watertight = none ∧
      (perform_geometry_checks w gp rp ec ct ht vt bt).is_single_component = none ∧
      (perform_geometry_checks w gp rp ec ct ht vt bt).bbox_accurate = none ∧
      (perform_geometry_checks w gp rp ec ct ht vt bt).volume_passed = none ∧
      (perform_geometry_checks w gp rp ec ct ht vt bt).chamfer_passed = none ∧
      (perform_geometry_checks w gp rp ec ct ht vt bt).hausdorff_passed = none) ∧
    (w.files gp ≠ none → w.files rp = none →
      (perform_geometry_checks w gp rp ec ct ht vt bt).is_watertight.isSome = true ∧
      (perform_geometry_checks w gp rp ec ct ht vt bt).is_single_component.isSome = true ∧
      (perform_geometry_checks w gp rp ec ct ht vt bt).volume_passed = none ∧
      (perform_geometry_checks w gp rp ec ct ht vt bt).bbox_accurate = none ∧
      (perform_geometry_checks w gp rp ec ct ht vt bt).chamfer_passed = none ∧
      (perform_geometry_checks w gp rp ec ct ht vt bt).hausdorff_passed = none) := by
  constructor
  · intro h
    simp [perform_geometry_checks, h]
  · intro h1 h2
    obtain ⟨gen, hgen⟩ := Option.ne_none_iff_exists'.mp h1
    simp [perform_geometry_checks, hgen, h2]

/-- Witness for C3: in the empty world all checks are absent and an
error is recorded. -/
theorem C3_file_existence_gates_witness :
    (perform_geometry_checks emptyWorld "gen.stl" "ref.stl" 1 1 1 2 1).errors ≠ [] ∧
    (perform_geometry_checks emptyWorld "gen.stl" "ref.stl" 1 1 1 2 1).is_watertight = none ∧
    (perform_geometry_checks emptyWorld "gen.stl" "ref.stl" 1 1 1 2 1).is_single_component = none ∧
    (perform_geometry_checks emptyWorld "gen.stl" "ref.stl" 1 1 1 2 1).bbox_accurate = none ∧
    (perform_geometry_checks emptyWorld "gen.stl" "ref.stl" 1 1 1 2 1).volume_passed = none ∧
    (perform_geometry_checks emptyWorld "gen.stl" "ref.stl" 1 1 1 2 1).chamfer_passed = none ∧
    (perform_geometry_checks emptyWorld "gen.stl" "ref.stl" 1 1 1 2 1).hausdorff_passed = none :=
  (C3_file_existence_gates emptyWorld "gen.stl" "ref.stl" 1 1 1 2 1).1 rfl

/-- C5: when both distance arrays are non-empty, the reported Chamfer
distance is the average of the two directional means, and (in general)
`chamfer_passed` is the thresholded Chamfer distance exactly when the
Chamfer distance is present, `None` otherwise. -/
theorem C5_chamfer_distance (w : World) (gp rp : String) (ec : Nat)
    (ct ht vt bt : ℚ) (gen ref : MeshData)
    (hg : w.files gp = some gen) (hr : w.files rp = some ref)
    (hgt : gen.hasTriangles = true) (hrt : ref.hasTriangles = true)
    (hgs : 100 ≤ gen.sampledCount) (hrs : 100 ≤ ref.sampledCount)
    (hgd : gen.downHasPoints = true) (hgf : gen.fpfhNonempty = true)
    (hrd : ref.downHasPoints = true) (hrf : ref.fpfhNonempty = true)
    (hne1 : w.distGenToRef gp rp (w.tIcp gp rp * w.tRansac gp rp) ≠ [])
    (hne2 : w.distRefToGen gp rp (w.tIcp gp rp * w.tRansac gp rp) ≠ []) :
    ((perform_geometry_checks w gp rp ec ct ht vt bt).chamfer_distance =
      some ((listMean (w.distGenToRef gp rp (w.tIcp gp rp * w.tRansac gp rp)) +
             listMean (w.distRefToGen gp rp (w.tIcp gp rp * w.tRansac gp rp))) / 2)) ∧
    (∀ (w2 : World) (gp2 rp2 : String) (ec2 : Nat) (ct2 ht2 vt2 bt2 : ℚ),
      (perform_geometry_checks w2 gp2 rp2 ec2 ct2 ht2 vt2 bt2).chamfer_passed =
        (perform_geometry_checks w2 gp2 rp2 ec2 ct2 ht2 vt2 bt2).chamfer_distance.map
          (fun c => decide (c ≤ ct2))) := by
  constructor
  · rw [perform_geometry_checks_both_exist w gp rp ec ct ht vt bt
      (by simp [hg]) (by simp [hr]),
      check_similarity_success w gp rp ct ht bt gen ref hg hr hgt hrt hgs hrs
        hgd hgf hrd hrf hne1 hne2]
  · intro w2 gp2 rp2 ec2 ct2 ht2 vt2 bt2
    by_cases h1 : (w2.files gp2).isNone
    · simp [perform_geometry_checks, h1]
    · by_cases h2 : (w2.files rp2).isNone
      · simp [perform_geometry_checks, h1, h2]
      · rw [perform_geometry_checks_both_exist w2 gp2 rp2 ec2 ct2 ht2 vt2 bt2
          (Bool.eq_false_iff.mpr h1) (Bool.eq_false_iff.mpr h2)]

/-- Witness for C5 on the sample world (all distances zero). -/
theorem C5_chamfer_distance_witness :
    (perform_geometry_checks sampleWorld "gen.stl" "ref.stl" 1 1 1 2 1).chamfer_distance =
      some ((listMean [0, 0] + listMean [0, 0]) / 2) :=
  (C5_chamfer_distance sampleWorld "gen.stl" "ref.stl" 1 1 1 2 1 (okMesh 8) (okMesh 8)
    rfl rfl rfl rfl (by decide) (by decide) rfl rfl rfl rfl
    (by decide) (by decide)).1

/-- C6: when both distance arrays are non-empty, the reported Hausdorff
metrics are the 95th and 99th percentiles of the pooled concatenation of
both directions' distances, and (in general) `hausdorff_passed` is the
thresholded 95th percentile exactly when that percentile is present,
`None` otherwise. -/
theorem C6_hausdorff_percentiles (w : World) (gp rp : String) (ec : Nat)
    (ct ht vt bt : ℚ) (gen ref : MeshData)
    (hg : w.files gp = some gen) (hr : w.files rp = some ref)
    (hgt : gen.hasTriangles = true) (hrt : ref.hasTriangles = true)
    (hgs : 100 ≤ gen.sampledCount) (hrs : 100 ≤ ref.sampledCount)
    (hgd : gen.downHasPoints = true) (hgf : gen.fpfhNonempty = true)
    (hrd : ref.downHasPoints = true) (hrf : ref.fpfhNonempty = true)
    (hne1 : w.distGenToRef gp rp (w.tIcp gp rp * w.tRansac gp rp) ≠ [])
    (hne2 : w.distRefToGen gp rp (w.tIcp gp rp * w.tRansac gp rp) ≠ []) :
    ((perform_geometry_checks w gp rp ec ct ht vt bt).hausdorff_95p =
      some (percentile (w.distGenToRef gp rp (w.tIcp gp rp * w.tRansac gp rp) ++
        w.distRefToGen gp rp (w.tIcp gp rp * w.tRansac gp rp)) 95)) ∧
    ((perform_geometry_checks w gp rp ec ct ht vt bt).hausdorff_99p =
      some (percentile (w.distGenToRef gp rp (w.tIcp gp rp * w.tRansac gp rp) ++
        w.distRefToGen gp rp (w.tIcp gp rp * w.tRansac gp rp)) 99)) ∧
    (∀ (w2 : World) (gp2 rp2 : String) (ec2 : Nat) (ct2 ht2 vt2 bt2 : ℚ),
      (perform_geometry_checks w2 gp2 rp2 ec2 ct2 ht2 vt2 bt2).hausdorff_passed =
        (perform_geometry_checks w2 gp2 rp2 ec2 ct2 ht2 vt2 bt2).hausdorff_95p.map
          (fun h => decide (h ≤ ht2))) := by
  refine ⟨?_, ?_, ?_⟩
  · rw [perform_geometry_checks_both_exist w gp rp ec ct ht vt bt
      (by simp [hg]) (by simp [hr]),
      check_similarity_success w gp rp ct ht bt gen ref hg hr hgt hrt hgs hrs
        hgd hgf hrd hrf hne1 hne2]
  · rw [perform_geometry_checks_both_exist w gp rp ec ct ht vt bt
      (by simp [hg]) (by simp [hr]),
      check_similarity_success w gp rp ct ht bt gen ref hg hr hgt hrt hgs hrs
        hgd hgf hrd hrf hne1 hne2]
  · intro w2 gp2 rp2 ec2 ct2 ht2 vt2 bt2
    by_cases h1 : (w2.files gp2).isNone
    · simp [perform_geometry_checks, h1]
    · by_cases h2 : (w2.files rp2).isNone
      · simp [perform_geometry_checks, h1, h2]
      · rw [perform_geometry_checks_both_exist w2 gp2 rp2 ec2 ct2 ht2 vt2 bt2
          (Bool.eq_false_iff.mpr h1) (Bool.eq_false_iff.mpr h2)]

/-- Witness for C6 on the sample world. -/
theorem C6_hausdorff_percentiles_witness :
    (perform_geometry_checks sampleWorld "gen.stl" "ref.stl" 1 1 1 2 1).hausdorff_95p =
      some (percentile ([0, 0] ++ [0, 0]) 95) :=
  (C6_hausdorff_percentiles sampleWorld "gen.stl" "ref.stl" 1 1 1 2 1
    (okMesh 8) (okMesh 8) rfl rfl rfl rfl (by decide) (by decide)
    rfl rfl rfl rfl (by decide) (by decide)).1

/-- C7: the bounding-box check applies the same final transform
`t_icp * t_ransac` that produced the distance metrics to the
full-resolution generated mesh, sorts both extent triples ascending, and
`bbox_accurate` is true iff every pairwise absolute difference of the
sorted extents is within the bbox tolerance. -/
theorem C7_bbox_check (w : World) (gp rp : String) (ec : Nat)
    (ct ht vt bt : ℚ) (gen ref : MeshData)
    (hg : w.files gp = some gen) (hr : w.files rp = some ref)
    (hgt : gen.hasTriangles = true) (hrt : ref.hasTriangles = true)
    (hgs : 100 ≤ gen.sampledCount) (hrs : 100 ≤ ref.sampledCount)
    (hgd : gen.downHasPoints = true) (hgf : gen.fpfhNonempty = true)
    (hrd : ref.downHasPoints = true) (hrf : ref.fpfhNonempty = true)
    (hne1 : w.distGenToRef gp rp (w.tIcp gp rp * w.tRansac gp rp) ≠ [])
    (hne2 : w.distRefToGen gp rp (w.tIcp gp rp * w.tRansac gp rp) ≠ []) :
    ((perform_geometry_checks w gp rp ec ct ht vt bt).chamfer_distance =
      some ((listMean (w.distGenToRef gp rp (w.tIcp gp rp * w.tRansac gp rp)) +
             listMean (w.distRefToGen gp rp (w.tIcp gp rp * w.tRansac gp rp))) / 2)) ∧
    ((perform_geometry_checks w gp rp ec ct ht vt bt).bbox_accurate =
      some ((List.zipWith (fun a b => |a - b|)
        ((extentsList (w.extents gp (w.tIcp gp rp * w.tRansac gp rp))).insertionSort (· ≤ ·))
        ((extentsList (w.extents rp 1)).insertionSort (· ≤ ·))).all
          (fun d => decide (d ≤ bt)))) ∧
    ((perform_geometry_checks w gp rp ec ct ht vt bt).bbox_accurate = some true ↔
      ∀ d ∈ List.zipWith (fun a b => |a - b|)
        ((extentsList (w.extents gp (w.tIcp gp rp * w.tRansac gp rp))).insertionSort (· ≤ ·))
        ((extentsList (w.extents rp 1)).insertionSort (· ≤ ·)), d ≤ bt) := by
  have hmain := perform_geometry_checks_both_exist w gp rp ec ct ht vt bt
    (by simp [hg]) (by simp [hr])
  have hsim := check_similarity_success w gp rp ct ht bt gen ref hg hr hgt hrt
    hgs hrs hgd hgf hrd hrf hne1 hne2
  refine ⟨?_, ?_, ?_⟩
  · rw [hmain, hsim]
  · rw [hmain, hsim]
  · rw [hmain, hsim]
    simp [List.all_eq_true]

/-- Witness for C7 on the sample world (identical unit extents). -/
theorem C7_bbox_check_witness :
    (perform_geometry_checks sampleWorld "gen.stl" "ref.stl" 1 1 1 2 1).bbox_accurate =
      some ((List.zipWith (fun a b => |a - b|)
        (([1, 1, 1] : List ℚ).insertionSort (· ≤ ·))
        (([1, 1, 1] : List ℚ).insertionSort (· ≤ ·))).all
          (fun d => decide (d ≤ (1 : ℚ)))) :=
  (C7_bbox_check sampleWorld "gen.stl" "ref.stl" 1 1 1 2 1 (okMesh 8) (okMesh 8)
    rfl rfl rfl rfl (by decide) (by decide) rfl rfl rfl rfl
    (by decide) (by decide)).2.1

/-- C8: when both files exist the aggregator records every stage's output
— watertight, component count, volume and similarity — regardless of
whether earlier checks failed, and its error list is exactly the
concatenation of the four tagged stage errors in the fixed stage
order. -/
theorem C8_runs_all_stages (w : World) (gp rp : String) (ec : Nat)
    (ct ht vt bt : ℚ)
    (hg : (w.files gp).isNone = false) (hr : (w.files rp).isNone = false) :
    (perform_geometry_checks w gp rp ec ct ht vt bt).is_watertight =
      some (check_watertight w gp).1 ∧
    (perform_geometry_checks w gp rp ec ct ht vt bt).is_single_component =
      some (check_single_component w gp ec).1 ∧
    (perform_geometry_checks w gp rp ec ct ht vt bt).volume_passed =
      some (check_volume w gp rp vt).1 ∧
    (perform_geometry_checks w gp rp ec ct ht vt bt).chamfer_distance =
      (check_similarity w gp rp ct ht bt).1 ∧
    (perform_geometry_checks w gp rp ec ct ht vt bt).hausdorff_95p =
      (check_similarity w gp rp ct ht bt).2.1 ∧
    (perform_geometry_checks w gp rp ec ct ht vt bt).icp_fitness =
      (check_similarity w gp rp ct ht bt).2.2.2.1 ∧
    (perform_geometry_checks w gp rp ec ct ht vt bt).bbox_accurate =
      (check_similarity w gp rp ct ht bt).2.2.2.2.1 ∧
    (perform_geometry_checks w gp rp ec ct ht vt bt).errors =
      tagError "Watertight" (check_watertight w gp).2 ++
      tagError "Components" (check_single_component w gp ec).2 ++
      tagError "Volume" (check_volume w gp rp vt).2.2.2 ++
      tagError "Similarity" (check_similarity w gp rp ct ht bt).2.2.2.2.2 := by
  rw [perform_geometry_checks_both_exist w gp rp ec ct ht vt bt hg hr]
  exact ⟨rfl, rfl, rfl, rfl, rfl, rfl, rfl, rfl⟩

/-- Witness for C8: the both-non-watertight world still runs and records
the volume and similarity stages. -/
theorem C8_runs_all_stages_witness :
    (perform_geometry_checks bothNotWatertightWorld "gen.stl" "ref.stl" 1 1 1 2 1).is_watertight =
      some (check_watertight bothNotWatertightWorld "gen.stl").1 ∧
    (perform_geometry_checks bothNotWatertightWorld "gen.stl" "ref.stl" 1 1 1 2 1).is_single_component =
      some (check_single_component bothNotWatertightWorld "gen.stl" 1).1 ∧
    (perform_geometry_checks bothNotWatertightWorld "gen.stl" "ref.stl" 1 1 1 2 1).volume_passed =
      some (check_volume bothNotWatertightWorld "gen.stl" "ref.stl" 2).1 ∧
    (perform_geometry_checks bothNotWatertightWorld "gen.stl" "ref.stl" 1 1 1 2 1).chamfer_distance =
      (check_similarity bothNotWatertightWorld "gen.stl" "ref.stl" 1 1 1).1 ∧
    (perform_geometry_checks bothNotWatertightWorld "gen.stl" "ref.stl" 1 1 1 2 1).hausdorff_95p =
      (check_similarity bothNotWatertightWorld "gen.stl" "ref.stl" 1 1 1).2.1 ∧
    (perform_geometry_checks bothNotWatertightWorld "gen.stl" "ref.stl" 1 1 1 2 1).icp_fitness =
      (check_similarity bothNotWatertightWorld "gen.stl" "ref.stl" 1 1 1).2.2.2.1 ∧
    (perform_geometry_checks bothNotWatertightWorld "gen.stl" "ref.stl" 1 1 1 2 1).bbox_accurate =
      (check_similarity bothNotWatertightWorld "gen.stl" "ref.stl" 1 1 1).2.2.2.2.1 ∧
    (perform_geometry_checks bothNotWatertightWorld "gen.stl" "ref.stl" 1 1 1 2 1).errors =
      tagError "Watertight" (check_watertight bothNotWatertightWorld "gen.stl").2 ++
      tagError "Components" (check_single_component bothNotWatertightWorld "gen.stl" 1).2 ++
      tagError "Volume" (check_volume bothNotWatertightWorld "gen.stl" "ref.stl" 2).2.2.2 ++
      tagError "Similarity" (check_similarity bothNotWatertightWorld "gen.stl" "ref.stl" 1 1 1).2.2.2.2.2 :=
  C8_runs_all_stages bothNotWatertightWorld "gen.stl" "ref.stl" 1 1 1 2 1 rfl rfl

end CadQueryEval
